import Mathlib

/-!
Shallow embedding of the autobase-smart-contract repository.

Sources embedded here:
- src/contracts/index.js : the Apply Dispatcher (createSmartContractSystem's
  apply), the currency ledger (createCurrencySystem) and the resource
  inventory (createResourceSystem);
- src/identity/index.js : the identity registry (createIdentityRegistry);
- src/permissions/index.js : the permission authority (createPermissionSystem).

Modelling conventions:
- JavaScript Maps are association lists over String keys (`AList`);
  `alSet` replaces the existing binding in place or appends a new one at
  the end, exactly as `Map.prototype.set` does on a map with unique keys.
- JS numbers on the ledger paths are mathematical integers (`Int`).
- A possibly-undefined field is an `Option`; JS truthiness of a string or
  number metric is `truthyStr` / `truthyInt` ("" and 0 are falsy).
- A thrown exception on a path with no try/catch is `Option.none` in the
  result type of the function that models it.
- `Date.now()` is passed in explicitly as a `now : Int` parameter.
-/

namespace AutobaseSC

/-- Association-list model of a JavaScript `Map` with string keys. -/
abbrev AList (α : Type) := List (String × α)

/-- Model of `Map.prototype.get`: first binding of the key, if any. -/
def alGet {α : Type} : AList α → String → Option α
  | [], _ => none
  | p :: rest, k => if p.1 = k then some p.2 else alGet rest k

/-- Model of `Map.prototype.set`: replace the existing binding in place,
otherwise append a new binding at the end. -/
def alSet {α : Type} : AList α → String → α → AList α
  | [], k, v => [(k, v)]
  | p :: rest, k, v => if p.1 = k then (k, v) :: rest else p :: alSet rest k v

/-- Model of `Map.prototype.delete`. -/
def alDelete {α : Type} : AList α → String → AList α
  | [], _ => []
  | p :: rest, k => if p.1 = k then rest else p :: alDelete rest k

/-- Sum of the values of a map of integers (used for the ledger invariant). -/
def alSum (m : AList Int) : Int := (m.map Prod.snd).sum

theorem alGet_alSet_self {α : Type} (m : AList α) (k : String) (v : α) :
    alGet (alSet m k v) k = some v := by
  induction m with
  | nil => simp [alSet, alGet]
  | cons p rest ih =>
    by_cases h : p.1 = k
    · simp [alSet, alGet, h]
    · simp [alSet, alGet, h, ih]

theorem alGet_alSet_ne {α : Type} (m : AList α) (k q : String) (v : α) (h : q ≠ k) :
    alGet (alSet m k v) q = alGet m q := by
  have hkq : ¬(k = q) := fun hh => h hh.symm
  induction m with
  | nil => simp [alSet, alGet, hkq]
  | cons p rest ih =>
    by_cases hp : p.1 = k
    · have hpq : ¬(p.1 = q) := fun hh => hkq (hp.symm.trans hh)
      simp only [alSet, if_pos hp, alGet]
      rw [if_neg hkq, if_neg hpq]
    · simp only [alSet, if_neg hp, alGet]
      by_cases hq : p.1 = q
      · rw [if_pos hq, if_pos hq]
      · rw [if_neg hq, if_neg hq, ih]

theorem alSum_alSet (m : AList Int) (k : String) (v : Int) :
    alSum (alSet m k v) = alSum m - (alGet m k).getD 0 + v := by
  induction m with
  | nil => simp [alSet, alGet, alSum]
  | cons p rest ih =>
    by_cases hp : p.1 = k
    · simp only [alSet, alGet, if_pos hp, alSum, List.map_cons, List.sum_cons,
        Option.getD_some]
      omega
    · simp only [alSet, alGet, if_neg hp, alSum, List.map_cons, List.sum_cons]
      have hr := ih
      simp only [alSum] at hr
      omega

theorem getLast?_concat {α : Type} (l : List α) (a : α) :
    (l ++ [a]).getLast? = some a := by
  induction l with
  | nil => rfl
  | cons b t ih =>
    cases t with
    | nil => rfl
    | cons c u => simpa using ih

/-- JS truthiness of a possibly-missing string ("" and undefined are falsy). -/
def truthyStr : Option String → Bool
  | none => false
  | some s => s != ""

/-- JS truthiness of a possibly-missing number (0 and undefined are falsy). -/
def truthyInt : Option Int → Bool
  | none => false
  | some n => n != 0

/-- Payload of an operation envelope (`operation.data`). Every field that a
domain machine may read is present as an `Option`; an absent field models
`undefined`. -/
structure EnvData where
  type : String
  dataTo : Option String := none
  dataFrom : Option String := none
  amount : Option Int := none
  minterId : Option String := none
  burnerId : Option String := none
  resourceId : Option String := none
  resName : Option String := none
  description : Option String := none
  maxSupply : Option Int := none
  creatorId : Option String := none
  reason : Option String := none
  channelId : Option String := none
  userPublicKey : Option String := none
  role : Option String := none
  masterPublicKey : Option String := none
  devicePublicKey : Option String := none
  authSignature : Option String := none
  tokenContract : Option String := none
  minBalance : Option Int := none
  tokenType : Option String := none
  deriving DecidableEq

/-- Operation envelope: `{ system, data, timestamp }`. `system = ""` models a
missing system tag and `data = none` a missing payload; `timestamp = 0` is
falsy, as in JS. -/
structure Envelope where
  system : String
  data : Option EnvData
  timestamp : Int
  deriving DecidableEq

namespace Currency

/-- Configuration of `createCurrencySystem` (defaults applied at the call
boundary). -/
structure Config where
  name : String
  symbol : String
  decimals : Int
  maxSupply : Int
  initialSupply : Int
  initialHolder : Option String
  deriving DecidableEq

/-- One entry of the append-only `transactions` history. -/
structure Tx where
  type : String
  txFrom : Option String := none
  txTo : Option String := none
  amount : Int
  minterId : Option String := none
  burnerId : Option String := none
  timestamp : Int
  status : String
  reason : Option String := none
  deriving DecidableEq

/-- The mutable state closed over by `createCurrencySystem`:
`balances`, `transactions`, `totalSupply`. -/
structure State where
  balances : AList Int
  transactions : List Tx
  totalSupply : Int
  deriving DecidableEq

/-- Initial state of `createCurrencySystem`: if `initialSupply > 0` and
`initialHolder` is truthy, the initial supply is credited to the holder. -/
def createCurrencySystem (cfg : Config) : State :=
  if 0 < cfg.initialSupply ∧ truthyStr cfg.initialHolder = true then
    { balances := [(cfg.initialHolder.getD "", cfg.initialSupply)],
      transactions := [], totalSupply := cfg.initialSupply }
  else
    { balances := [], transactions := [], totalSupply := 0 }

/-- `mintInternal(to, amount, minterId)`. -/
def mintInternal (cfg : Config) (toAddr : String) (amount : Int) (minterId : String)
    (now : Int) (s : State) : State :=
  if cfg.maxSupply < s.totalSupply + amount then
    { s with transactions := s.transactions ++
        [{ type := "MINT", txTo := some toAddr, amount := amount,
           minterId := some minterId, timestamp := now,
           status := "failed", reason := some "Would exceed max supply" }] }
  else
    { balances := alSet s.balances toAddr ((alGet s.balances toAddr).getD 0 + amount),
      transactions := s.transactions ++
        [{ type := "MINT", txTo := some toAddr, amount := amount,
           minterId := some minterId, timestamp := now, status := "success" }],
      totalSupply := s.totalSupply + amount }

/-- `transferInternal(from, to, amount, timestamp)`. The recipient balance is
read only after the sender balance has been written, as in the source. -/
def transferInternal (tfrom tto : String) (amount timestamp : Int) (s : State) : State :=
  let fromBalance := (alGet s.balances tfrom).getD 0
  if fromBalance < amount then
    { s with transactions := s.transactions ++
        [{ type := "TRANSFER", txFrom := some tfrom, txTo := some tto,
           amount := amount, timestamp := timestamp,
           status := "failed", reason := some "Insufficient balance" }] }
  else
    let b1 := alSet s.balances tfrom (fromBalance - amount)
    let toBalance := (alGet b1 tto).getD 0
    { balances := alSet b1 tto (toBalance + amount),
      transactions := s.transactions ++
        [{ type := "TRANSFER", txFrom := some tfrom, txTo := some tto,
           amount := amount, timestamp := timestamp, status := "success" }],
      totalSupply := s.totalSupply }

/-- `burnInternal(from, amount, burnerId)`. -/
def burnInternal (bfrom : String) (amount : Int) (burnerId : String)
    (now : Int) (s : State) : State :=
  let fromBalance := (alGet s.balances bfrom).getD 0
  if fromBalance < amount then
    { s with transactions := s.transactions ++
        [{ type := "BURN", txFrom := some bfrom, amount := amount,
           burnerId := some burnerId, timestamp := now,
           status := "failed", reason := some "Insufficient balance" }] }
  else
    { balances := alSet s.balances bfrom (fromBalance - amount),
      transactions := s.transactions ++
        [{ type := "BURN", txFrom := some bfrom, amount := amount,
           burnerId := some burnerId, timestamp := now, status := "success" }],
      totalSupply := s.totalSupply - amount }

/-- `balanceOf(address)`: defaults to 0 for unknown addresses. -/
def balanceOf (s : State) (account : String) : Int :=
  (alGet s.balances account).getD 0

/-- `transactions[transactions.length - 1].status === "success"`, the success
check run by the public `mint` / `transfer` / `burn`. -/
def lastTxSuccess (s : State) : Bool :=
  match s.transactions.getLast? with
  | some tx => tx.status == "success"
  | none => false

/-- Public `mint`: applies `mintInternal` locally and reports the status of the
last history entry. -/
def mint (cfg : Config) (toAddr : String) (amount : Int) (minterId : String)
    (now : Int) (s : State) : State × Bool :=
  let s1 := mintInternal cfg toAddr amount minterId now s
  (s1, lastTxSuccess s1)

/-- Public `transfer`: applies `transferInternal` locally and reports the status
of the last history entry. -/
def transfer (tfrom tto : String) (amount now : Int) (s : State) : State × Bool :=
  let s1 := transferInternal tfrom tto amount now s
  (s1, lastTxSuccess s1)

/-- Public `burn`: applies `burnInternal` locally and reports the status of the
last history entry. -/
def burn (bfrom : String) (amount : Int) (burnerId : String) (now : Int)
    (s : State) : State × Bool :=
  let s1 := burnInternal bfrom amount burnerId now s
  (s1, lastTxSuccess s1)

/-- Abstract ledger operation (the three `OP_TYPES` of the currency system). -/
inductive Op where
  | mintOp (toAddr : String) (amount : Int) (minterId : String) (now : Int)
  | transferOp (tfrom tto : String) (amount : Int) (timestamp : Int)
  | burnOp (bfrom : String) (amount : Int) (burnerId : String) (now : Int)
  deriving DecidableEq

/-- The amount carried by a ledger operation. -/
def amountOf : Op → Int
  | .mintOp _ a _ _ => a
  | .transferOp _ _ a _ => a
  | .burnOp _ a _ _ => a

/-- Dispatch of one ledger operation to the matching internal function (the
`switch` of the currency `apply`/`updateFromOperation`). -/
def applyOp (cfg : Config) (s : State) : Op → State
  | .mintOp t a m now => mintInternal cfg t a m now s
  | .transferOp f t a ts => transferInternal f t a ts s
  | .burnOp f a b now => burnInternal f a b now s

/-- `generateOperationId(operation)`: the dedup key. Returns `none` when
`system`, `data` or `timestamp` is falsy; otherwise joins
`system, data.type, timestamp` and the type-specific identifying fields
(included only when truthy, as `&&` does in JS) with `"_"`. -/
def generateOperationId (e : Envelope) : Option String :=
  if e.system = "" ∨ e.data = none ∨ e.timestamp = 0 then none
  else
    match e.data with
    | none => none
    | some d =>
      let base := [e.system, d.type, toString e.timestamp]
      let extra :=
        if d.type = "MINT" then
          if truthyStr d.dataTo && truthyInt d.amount then
            [d.dataTo.getD "", toString (d.amount.getD 0)]
          else []
        else if d.type = "TRANSFER" then
          if truthyStr d.dataFrom && truthyStr d.dataTo && truthyInt d.amount then
            [d.dataFrom.getD "", d.dataTo.getD "", toString (d.amount.getD 0)]
          else []
        else if d.type = "BURN" then
          if truthyStr d.dataFrom && truthyInt d.amount then
            [d.dataFrom.getD "", toString (d.amount.getD 0)]
          else []
        else []
      some (String.intercalate "_" (base ++ extra))

/-- `updateFromOperation(operation)` of the currency system: routes a currency
envelope to the matching internal function. `operation.timestamp || Date.now()`
is modelled by substituting `now` for a falsy timestamp. -/
def updateFromOperation (cfg : Config) (now : Int) (e : Envelope) (s : State) : State :=
  match e.data with
  | some d =>
    if e.system = "currency" then
      if d.type = "MINT" then
        mintInternal cfg (d.dataTo.getD "") (d.amount.getD 0) (d.minterId.getD "") now s
      else if d.type = "TRANSFER" then
        transferInternal (d.dataFrom.getD "") (d.dataTo.getD "") (d.amount.getD 0)
          (if e.timestamp = 0 then now else e.timestamp) s
      else if d.type = "BURN" then
        burnInternal (d.dataFrom.getD "") (d.amount.getD 0) (d.burnerId.getD "") now s
      else s
    else s
  | none => s

/-- State of the replay loop of `initialize` (`forceInitialize`): the currency
state being rebuilt plus the `processedOperations` set. -/
structure ReplayState where
  cur : State
  processed : List String
  deriving DecidableEq

/-- One iteration of the replay loop of `initialize`: a currency envelope is
skipped when its dedup key is already in `processedOperations`; otherwise it is
applied through `updateFromOperation` and its key recorded. -/
def replayStep (cfg : Config) (now : Int) (st : ReplayState) (e : Envelope) : ReplayState :=
  if e.system = "currency" ∧ e.data ≠ none then
    match generateOperationId e with
    | some opId =>
      if opId ∈ st.processed then st
      else { cur := updateFromOperation cfg now e st.cur,
             processed := st.processed ++ [opId] }
    | none => { st with cur := updateFromOperation cfg now e st.cur }
  else st

/-- The replay loop of `initialize` over the envelopes of the view. -/
def replayList (cfg : Config) (now : Int) (es : List Envelope) (st : ReplayState) : ReplayState :=
  es.foldl (replayStep cfg now) st

/-- The state `initialize` resets to before replaying (empty maps, supply 0,
empty `processedOperations`). -/
def replayInit : ReplayState :=
  { cur := { balances := [], transactions := [], totalSupply := 0 }, processed := [] }

end Currency

namespace Identity

/-- An argument of `registerDevice`: either a raw key buffer (`Buffer`) or a
string that is already hex-encoded. -/
inductive KeyInput where
  | raw (bytes : List Nat)
  | hexStr (s : String)
  deriving DecidableEq

/-- Lower-case hex digit for a nibble, as `Buffer.toString("hex")` produces. -/
def hexDigitChar (n : Nat) : Char :=
  if n < 10 then Char.ofNat (48 + n) else Char.ofNat (87 + n)

/-- `Buffer.prototype.toString("hex")`. -/
def hexEncode (bs : List Nat) : String :=
  String.mk (bs.flatMap fun b => [hexDigitChar (b / 16 % 16), hexDigitChar (b % 16)])

/-- The hex conversion `Buffer.isBuffer(x) ? x.toString("hex") : x` applied to
every key argument of the registry functions. -/
def keyToHex : KeyInput → String
  | .raw bs => hexEncode bs
  | .hexStr s => s

/-- The `authorizedDevices` map: master key hex -> set of device key hexes
(a JS `Set`, so adding dedups). -/
def addDevice (reg : AList (List String)) (masterHex deviceHex : String) :
    AList (List String) :=
  let devs := (alGet reg masterHex).getD []
  alSet reg masterHex (if deviceHex ∈ devs then devs else devs ++ [deviceHex])

/-- `registerDevice(masterPublicKey, devicePublicKey, authSignature)`.
The signature is checked by `verify(devicePublicKey, authSignature,
masterPublicKey)` only when all three arguments are raw buffers; a failing
check throws, which the surrounding try/catch turns into `false` with no state
change. On every other input shape the device is added with no verification.
`vf` is the opaque crypto primitive `verify(data, signature, publicKey)`. -/
def registerDevice (vf : List Nat → List Nat → List Nat → Bool)
    (reg : AList (List String)) (master device sig : KeyInput) :
    AList (List String) × Bool :=
  let masterHex := keyToHex master
  let deviceHex := keyToHex device
  match master, device, sig with
  | .raw mb, .raw db, .raw sb =>
    if vf db sb mb then (addDevice reg masterHex deviceHex, true)
    else (reg, false)
  | _, _, _ => (addDevice reg masterHex deviceHex, true)

/-- `isAuthorizedDevice(masterPublicKey, devicePublicKey)`: pure lookup. -/
def isAuthorizedDevice (reg : AList (List String)) (master device : KeyInput) : Bool :=
  ((alGet reg (keyToHex master)).getD []).contains (keyToHex device)

/-- `updateFromOperation(operation)` of the identity registry: adds the device
unconditionally for a `REGISTER_DEVICE` envelope (no signature check on the
replay path). -/
def updateFromOperation (e : Envelope) (reg : AList (List String)) :
    AList (List String) :=
  match e.data with
  | some d =>
    if e.system = "identity" ∧ d.type = "REGISTER_DEVICE" then
      addDevice reg (d.masterPublicKey.getD "") (d.devicePublicKey.getD "")
    else reg
  | none => reg

end Identity

namespace Perm

/-- The permission flags of a role. -/
structure Permissions where
  canRead : Bool
  canWrite : Bool
  canInvite : Bool
  canManagePermissions : Bool
  canManageChannels : Bool
  canManageRoom : Bool
  deriving DecidableEq

/-- `DEFAULT_PERMISSIONS.MEMBER`. -/
def DEFAULT_PERMISSIONS_MEMBER : Permissions :=
  { canRead := true, canWrite := true, canInvite := false,
    canManagePermissions := false, canManageChannels := false, canManageRoom := false }

/-- `DEFAULT_PERMISSIONS.MODERATOR`. -/
def DEFAULT_PERMISSIONS_MODERATOR : Permissions :=
  { canRead := true, canWrite := true, canInvite := true,
    canManagePermissions := true, canManageChannels := true, canManageRoom := false }

/-- `DEFAULT_PERMISSIONS.ADMIN`. -/
def DEFAULT_PERMISSIONS_ADMIN : Permissions :=
  { canRead := true, canWrite := true, canInvite := true,
    canManagePermissions := true, canManageChannels := true, canManageRoom := true }

/-- A value of the `rooms` map. -/
structure Room where
  id : String
  name : String
  createdBy : String
  createdAt : Int
  deriving DecidableEq

/-- A value of the `members` map, keyed by `roomId:userId`. -/
structure Member where
  id : String
  userId : String
  roomId : String
  role : String
  invitedBy : String
  joinedAt : Int
  deriving DecidableEq

/-- A value of the `roles` map, keyed by `roomId:ROLENAME`. -/
structure Role where
  id : String
  name : String
  roomId : String
  permissions : Permissions
  deriving DecidableEq

/-- A value of the `channels` map. -/
structure Channel where
  id : String
  roomId : String
  name : String
  createdBy : String
  createdAt : Int
  deriving DecidableEq

/-- The four maps closed over by `createPermissionSystem`. -/
structure PermState where
  rooms : AList Room
  members : AList Member
  roles : AList Role
  channels : AList Channel
  deriving DecidableEq

/-- The six `OP_TYPES` of the permission system. `updateChannel` carries the
`updates` object restricted to its `name` field (the only field the test
surface uses; `Object.assign` copies arbitrary fields). -/
inductive POp where
  | createRoom (roomId roomName creatorId : String)
  | addMember (roomId memberId role inviterId : String)
  | updateMemberRole (roomId memberId role updaterId : String)
  | createChannel (roomId channelId chanName creatorId : String)
  | deleteChannel (roomId channelId deleterId : String)
  | updateChannel (roomId channelId : String) (newName : Option String) (updaterId : String)
  deriving DecidableEq

/-- The `roomId` field of an operation. -/
def opRoomId : POp → String
  | .createRoom rid _ _ => rid
  | .addMember rid _ _ _ => rid
  | .updateMemberRole rid _ _ _ => rid
  | .createChannel rid _ _ _ => rid
  | .deleteChannel rid _ _ => rid
  | .updateChannel rid _ _ _ => rid

/-- The acting user `op.creatorId || op.inviterId || op.updaterId ||
op.deleterId` (each operation type carries exactly one of these). -/
def actorOf : POp → String
  | .createRoom _ _ cid => cid
  | .addMember _ _ _ inv => inv
  | .updateMemberRole _ _ _ upd => upd
  | .createChannel _ _ _ cid => cid
  | .deleteChannel _ _ del => del
  | .updateChannel _ _ _ upd => upd

/-- The member key `roomId:userId` for the acting user. -/
def memberKeyOf (op : POp) : String :=
  opRoomId op ++ ":" ++ actorOf op

/-- Whether an operation is `CREATE_ROOM` (always authorized). -/
def isCreateRoom : POp → Bool
  | .createRoom _ _ _ => true
  | _ => false

/-- The inner `switch (op.type)` of `isOperationAuthorized`: the permission
flag a role needs for each operation type (the default case returns false). -/
def requiredFlag : POp → Permissions → Bool
  | .addMember _ _ _ _, p => p.canInvite
  | .updateMemberRole _ _ _ _, p => p.canManagePermissions
  | .createChannel _ _ _ _, p => p.canManageChannels
  | .deleteChannel _ _ _, p => p.canManageChannels
  | .updateChannel _ _ _ _, p => p.canManageChannels
  | .createRoom _ _ _, _ => false

/-- `isOperationAuthorized(op)`. Result `none` models the uncaught TypeError
thrown by `role.permissions` when the member's stored role id has no entry in
the `roles` map (`roles.get(member.role)` is `undefined`). -/
def isOperationAuthorized (s : PermState) (op : POp) : Option Bool :=
  match op with
  | .createRoom _ _ _ => some true
  | _ =>
    match alGet s.members (memberKeyOf op) with
    | none => some false
    | some member =>
      match alGet s.roles member.role with
      | none => none
      | some role => some (requiredFlag op role.permissions)

/-- `addMemberInternal(roomId, memberId, roleId, inviterId)`: stores the given
role id unchecked. -/
def addMemberInternal (now : Int) (s : PermState)
    (roomId memberId roleId inviterId : String) : PermState :=
  let memberKey := roomId ++ ":" ++ memberId
  let m : Member := { id := memberKey, userId := memberId, roomId := roomId,
                      role := roleId, invitedBy := inviterId, joinedAt := now }
  { s with members := alSet s.members memberKey m }

/-- `updateMemberRoleInternal(roomId, memberId, roleId, updaterId)`. -/
def updateMemberRoleInternal (s : PermState) (roomId memberId roleId : String) :
    PermState :=
  let memberKey := roomId ++ ":" ++ memberId
  match alGet s.members memberKey with
  | none => s
  | some m => { s with members := alSet s.members memberKey ({ m with role := roleId }) }

/-- `createChannelInternal(roomId, channelId, name, creatorId)`. -/
def createChannelInternal (now : Int) (s : PermState)
    (roomId channelId chanName creatorId : String) : PermState :=
  let ch : Channel := { id := channelId, roomId := roomId, name := chanName,
                        createdBy := creatorId, createdAt := now }
  { s with channels := alSet s.channels channelId ch }

/-- `deleteChannelInternal(roomId, channelId, deleterId)`. -/
def deleteChannelInternal (s : PermState) (channelId : String) : PermState :=
  { s with channels := alDelete s.channels channelId }

/-- `updateChannelInternal(roomId, channelId, updates, updaterId)`
(`Object.assign` restricted to the `name` field). -/
def updateChannelInternal (s : PermState) (channelId : String)
    (newName : Option String) : PermState :=
  match alGet s.channels channelId with
  | none => s
  | some ch =>
    let ch2 : Channel := { ch with name := newName.getD ch.name }
    { s with channels := alSet s.channels channelId ch2 }

/-- `createRoomInternal(roomId, name, creatorId)`: creates the room, seeds the
three default roles, adds the creator as ADMIN, and creates the `general`
channel — all in one transition. -/
def createRoomInternal (now : Int) (s : PermState)
    (roomId roomName creatorId : String) : PermState :=
  let room : Room := { id := roomId, name := roomName, createdBy := creatorId,
                       createdAt := now }
  let roleMember : Role := { id := roomId ++ ":MEMBER", name := "MEMBER",
                             roomId := roomId, permissions := DEFAULT_PERMISSIONS_MEMBER }
  let roleModerator : Role := { id := roomId ++ ":MODERATOR", name := "MODERATOR",
                                roomId := roomId, permissions := DEFAULT_PERMISSIONS_MODERATOR }
  let roleAdmin : Role := { id := roomId ++ ":ADMIN", name := "ADMIN",
                            roomId := roomId, permissions := DEFAULT_PERMISSIONS_ADMIN }
  let s1 := { s with rooms := alSet s.rooms roomId room }
  let newRoles := alSet (alSet (alSet s1.roles (roomId ++ ":MEMBER") roleMember)
      (roomId ++ ":MODERATOR") roleModerator) (roomId ++ ":ADMIN") roleAdmin
  let s2 := { s1 with roles := newRoles }
  let s3 := addMemberInternal now s2 roomId creatorId (roomId ++ ":ADMIN") creatorId
  createChannelInternal now s3 roomId (roomId ++ ":general") "General" creatorId

/-- The `switch (op.type)` body of the permission `apply`, run only for
authorized operations. -/
def dispatchPermOp (now : Int) (s : PermState) : POp → PermState
  | .createRoom rid nm cid => createRoomInternal now s rid nm cid
  | .addMember rid mid role inv => addMemberInternal now s rid mid role inv
  | .updateMemberRole rid mid role _ => updateMemberRoleInternal s rid mid role
  | .createChannel rid chid nm cid => createChannelInternal now s rid chid nm cid
  | .deleteChannel _ chid _ => deleteChannelInternal s chid
  | .updateChannel _ chid nm _ => updateChannelInternal s chid nm

/-- One iteration of the permission `apply`: unauthorized operations are
skipped with no state change and no history entry; a `none` authorization
result is the TypeError propagating out of `apply` (there is no try/catch). -/
def applyPermOp (now : Int) (s : PermState) (op : POp) : Option PermState :=
  match isOperationAuthorized s op with
  | none => none
  | some false => some s
  | some true => some (dispatchPermOp now s op)

/-- The permission `apply` over a list of operations. -/
def applyPermList (now : Int) (s : PermState) (ops : List POp) : Option PermState :=
  ops.foldlM (fun st op => applyPermOp now st op) s

/-- The empty permission state (fresh `createPermissionSystem`). -/
def emptyPerm : PermState := { rooms := [], members := [], roles := [], channels := [] }

/-- The `addMember` closure of the room object returned by `createRoom`: the
role defaults to `roomId:MEMBER` and `inviterId` is always the room creator's
key, not the caller's. -/
def roomAddMemberOp (roomId creatorId userId : String) (roleOpt : Option String) : POp :=
  .addMember roomId userId
    (if truthyStr roleOpt then roleOpt.getD "" else roomId ++ ":MEMBER")
    creatorId

/-- The `updateMemberRole` closure of the room object returned by `createRoom`:
`updaterId` is always the room creator's key, not the caller's. -/
def roomUpdateMemberRoleOp (roomId creatorId userId newRole : String) : POp :=
  .updateMemberRole roomId userId (roomId ++ ":" ++ newRole) creatorId

/-- Scenario state: `createRoom("General", admin)` (room id fixed to "room1"),
then bob and alice added as members with the well-formed `room1:MEMBER` role. -/
def sceneState : PermState :=
  (applyPermList 0 emptyPerm
    [ .createRoom "room1" "General" "admin",
      .addMember "room1" "bob" "room1:MEMBER" "admin",
      .addMember "room1" "alice" "room1:MEMBER" "admin" ]).getD emptyPerm

/-- Scenario state for the unchecked-role hazard: bob is added with the raw
role id "MEMBER", which has no entry in the `roles` map (role ids are seeded as
`room1:MEMBER` etc.). -/
def badSceneState : PermState :=
  (applyPermList 0 emptyPerm
    [ .createRoom "room1" "General" "admin",
      .addMember "room1" "bob" "MEMBER" "admin" ]).getD emptyPerm

/-- Scenario state for the room-object closures: room created by "admin", then
alice added through the room object's `addMember` (default role). -/
def scene10State : PermState :=
  (applyPermList 0 emptyPerm
    [ .createRoom "room1" "General" "admin",
      roomAddMemberOp "room1" "admin" "alice" none ]).getD emptyPerm

end Perm

namespace Resource

/-- A value of the `resources` map: a resource definition. -/
structure ResourceDef where
  id : String
  name : String
  description : String
  maxSupply : Int
  currentSupply : Int
  createdAt : Int
  createdBy : String
  deriving DecidableEq

/-- One entry of the append-only `operations` history of the resource system. -/
structure OpRec where
  type : String
  resourceId : String
  rFrom : Option String := none
  rTo : Option String := none
  amount : Option Int := none
  minterId : Option String := none
  creatorId : Option String := none
  name : Option String := none
  description : Option String := none
  maxSupply : Option Int := none
  reason : Option String := none
  timestamp : Int
  status : String
  deriving DecidableEq

/-- The mutable state closed over by `createResourceSystem`: `resources`,
`holdings` (address -> resourceId -> quantity) and `operations`. -/
structure State where
  resources : AList ResourceDef
  holdings : AList (AList Int)
  operations : List OpRec
  deriving DecidableEq

/-- The empty resource state (fresh `createResourceSystem` with no
preconfigured resources). -/
def emptyState : State := { resources := [], holdings := [], operations := [] }

/-- The quantity of `rid` held by `addr` (0 when absent at either level). -/
def holdingOf (s : State) (addr rid : String) : Int :=
  (alGet ((alGet s.holdings addr).getD []) rid).getD 0

/-- `createResourceInternal(resourceId, name, description, maxSupply,
creatorId)`: registers the definition with `currentSupply = 0`. -/
def createResourceInternal (now : Int) (resourceId rname rdescription : String)
    (maxSupply : Int) (creatorId : String) (s : State) : State :=
  let rdef : ResourceDef := { id := resourceId, name := rname,
                              description := rdescription, maxSupply := maxSupply,
                              currentSupply := 0, createdAt := now, createdBy := creatorId }
  let rec1 : OpRec := { type := "CREATE_RESOURCE", resourceId := resourceId,
                        name := some rname, description := some rdescription,
                        maxSupply := some maxSupply, creatorId := some creatorId,
                        timestamp := now, status := "success" }
  { s with resources := alSet s.resources resourceId rdef,
           operations := s.operations ++ [rec1] }

/-- `mintResourceInternal(resourceId, to, amount, minterId)`. -/
def mintResourceInternal (now : Int) (resourceId rto : String) (amount : Int)
    (minterId : String) (s : State) : State :=
  match alGet s.resources resourceId with
  | none =>
    let rec1 : OpRec := { type := "MINT_RESOURCE", resourceId := resourceId,
                          rTo := some rto, amount := some amount,
                          minterId := some minterId, timestamp := now,
                          status := "failed", reason := some "Resource does not exist" }
    { s with operations := s.operations ++ [rec1] }
  | some rdef =>
    if 0 < rdef.maxSupply ∧ rdef.maxSupply < rdef.currentSupply + amount then
      let rec1 : OpRec := { type := "MINT_RESOURCE", resourceId := resourceId,
                            rTo := some rto, amount := some amount,
                            minterId := some minterId, timestamp := now,
                            status := "failed", reason := some "Would exceed max supply" }
      { s with operations := s.operations ++ [rec1] }
    else
      let userHoldings := (alGet s.holdings rto).getD []
      let currentAmount := (alGet userHoldings resourceId).getD 0
      let rdef2 : ResourceDef := { rdef with currentSupply := rdef.currentSupply + amount }
      let rec1 : OpRec := { type := "MINT_RESOURCE", resourceId := resourceId,
                            rTo := some rto, amount := some amount,
                            minterId := some minterId, timestamp := now,
                            status := "success" }
      { resources := alSet s.resources resourceId rdef2,
        holdings := alSet s.holdings rto (alSet userHoldings resourceId (currentAmount + amount)),
        operations := s.operations ++ [rec1] }

/-- `transferResourceInternal(resourceId, from, to, amount, timestamp)`:
never touches the `resources` map (so `currentSupply` is unchanged). The
recipient's map is read after the sender's map has been written, matching the
in-place Map mutation of the source. -/
def transferResourceInternal (resourceId rfrom rto : String)
    (amount timestamp : Int) (s : State) : State :=
  match alGet s.holdings rfrom with
  | none =>
    let rec1 : OpRec := { type := "TRANSFER_RESOURCE", resourceId := resourceId,
                          rFrom := some rfrom, rTo := some rto, amount := some amount,
                          timestamp := timestamp, status := "failed",
                          reason := some "Sender has no holdings" }
    { s with operations := s.operations ++ [rec1] }
  | some senderHoldings =>
    let senderAmount := (alGet senderHoldings resourceId).getD 0
    if senderAmount < amount then
      let rec1 : OpRec := { type := "TRANSFER_RESOURCE", resourceId := resourceId,
                            rFrom := some rfrom, rTo := some rto, amount := some amount,
                            timestamp := timestamp, status := "failed",
                            reason := some "Insufficient resources" }
      { s with operations := s.operations ++ [rec1] }
    else
      let h1 := alSet s.holdings rfrom (alSet senderHoldings resourceId (senderAmount - amount))
      let h2 := if (alGet h1 rto).isSome then h1 else alSet h1 rto []
      let receiverHoldings := (alGet h2 rto).getD []
      let receiverAmount := (alGet receiverHoldings resourceId).getD 0
      let rec1 : OpRec := { type := "TRANSFER_RESOURCE", resourceId := resourceId,
                            rFrom := some rfrom, rTo := some rto, amount := some amount,
                            timestamp := timestamp, status := "success" }
      { s with holdings := alSet h2 rto (alSet receiverHoldings resourceId (receiverAmount + amount)),
               operations := s.operations ++ [rec1] }

/-- `consumeResourceInternal(resourceId, from, amount, reason, timestamp)`.
When the holder's stock suffices but the resource definition is missing, the
source decrements the holding and then throws on `resource.currentSupply`;
the catch in `updateFromOperation` swallows the error, leaving the decremented
holding and no history record — modelled by the partial-update branch. -/
def consumeResourceInternal (resourceId cfrom : String) (amount : Int)
    (creason : String) (timestamp : Int) (s : State) : State :=
  match alGet s.holdings cfrom with
  | none =>
    let rec1 : OpRec := { type := "CONSUME_RESOURCE", resourceId := resourceId,
                          rFrom := some cfrom, amount := some amount,
                          timestamp := timestamp, status := "failed",
                          reason := some "User has no holdings" }
    { s with operations := s.operations ++ [rec1] }
  | some userHoldings =>
    let userAmount := (alGet userHoldings resourceId).getD 0
    if userAmount < amount then
      let rec1 : OpRec := { type := "CONSUME_RESOURCE", resourceId := resourceId,
                            rFrom := some cfrom, amount := some amount,
                            timestamp := timestamp, status := "failed",
                            reason := some "Insufficient resources" }
      { s with operations := s.operations ++ [rec1] }
    else
      let s1 := { s with holdings := alSet s.holdings cfrom (alSet userHoldings resourceId (userAmount - amount)) }
      match alGet s1.resources resourceId with
      | none => s1
      | some rdef =>
        let rdef2 : ResourceDef := { rdef with currentSupply := rdef.currentSupply - amount }
        let rec1 : OpRec := { type := "CONSUME_RESOURCE", resourceId := resourceId,
                              rFrom := some cfrom, amount := some amount,
                              reason := some creason, timestamp := timestamp,
                              status := "success" }
        { s1 with resources := alSet s1.resources resourceId rdef2,
                  operations := s1.operations ++ [rec1] }

/-- `updateFromOperation(operation)` of the resource system: routes a resource
envelope to the matching internal function; `operation.timestamp || Date.now()`
is modelled by substituting `now` for a falsy timestamp. -/
def updateFromOperation (now : Int) (e : Envelope) (s : State) : State :=
  match e.data with
  | some d =>
    if e.system = "resource" then
      if d.type = "CREATE_RESOURCE" then
        createResourceInternal now (d.resourceId.getD "") (d.resName.getD "")
          (d.description.getD "") (d.maxSupply.getD 0) (d.creatorId.getD "") s
      else if d.type = "MINT_RESOURCE" then
        mintResourceInternal now (d.resourceId.getD "") (d.dataTo.getD "")
          (d.amount.getD 0) (d.minterId.getD "") s
      else if d.type = "TRANSFER_RESOURCE" then
        transferResourceInternal (d.resourceId.getD "") (d.dataFrom.getD "")
          (d.dataTo.getD "") (d.amount.getD 0)
          (if e.timestamp = 0 then now else e.timestamp) s
      else if d.type = "CONSUME_RESOURCE" then
        consumeResourceInternal (d.resourceId.getD "") (d.dataFrom.getD "")
          (d.amount.getD 0) (d.reason.getD "")
          (if e.timestamp = 0 then now else e.timestamp) s
      else s
    else s
  | none => s

end Resource

namespace Dispatch

/-- The state routed to by the Apply Dispatcher of
`createSmartContractSystem`: the inline `state` maps (identity registry,
permission channels/default roles, token gates), the two domain machines it
delegates to, and the durable `view`. -/
structure State where
  identityRegistry : AList (List String)
  permChannels : AList (AList String)
  defaultRoles : AList String
  currency : Currency.State
  resource : Resource.State
  tokenGated : AList (AList (Int × String))
  view : List Envelope
  deriving DecidableEq

/-- The `switch (operation.system)` of the dispatcher's `apply`: routes the
envelope to the matching domain transition (an unknown system falls through
with no state change). -/
def routeNode (cfg : Currency.Config) (now : Int) (d : State) (e : Envelope) : State :=
  match e.data with
  | none => d
  | some dd =>
    if e.system = "permission" then
      if dd.type = "SET_PERMISSION" then
        let ch := dd.channelId.getD ""
        let m := (alGet d.permChannels ch).getD []
        { d with permChannels := alSet d.permChannels ch (alSet m (dd.userPublicKey.getD "") (dd.role.getD "")) }
      else if dd.type = "SET_DEFAULT_ROLE" then
        { d with defaultRoles := alSet d.defaultRoles (dd.userPublicKey.getD "") (dd.role.getD "") }
      else d
    else if e.system = "currency" then
      { d with currency := Currency.updateFromOperation cfg now e d.currency }
    else if e.system = "resource" then
      { d with resource := Resource.updateFromOperation now e d.resource }
    else if e.system = "identity" then
      if dd.type = "REGISTER_DEVICE" then
        let reg2 := Identity.addDevice d.identityRegistry (dd.masterPublicKey.getD "") (dd.devicePublicKey.getD "")
        { d with identityRegistry := reg2 }
      else d
    else if e.system = "tokenGated" then
      if dd.type = "SET_TOKEN_GATE" then
        let ch := dd.channelId.getD ""
        let m := (alGet d.tokenGated ch).getD []
        { d with tokenGated := alSet d.tokenGated ch (alSet m (dd.tokenContract.getD "") (dd.minBalance.getD 0, dd.tokenType.getD "")) }
      else d
    else d

/-- One iteration of the dispatcher's `apply` for a delivered envelope:
an envelope with a falsy `system` or missing `data` is skipped entirely;
otherwise it is routed by system and then appended to the durable view,
regardless of the outcome of the domain transition. -/
def applyNode (cfg : Currency.Config) (now : Int) (d : State) (e : Envelope) : State :=
  if e.system = "" ∨ e.data = none then d
  else
    let d1 := routeNode cfg now d e
    { d1 with view := d1.view ++ [e] }

/-- Routing never touches the durable view; only `applyNode` appends to it. -/
theorem routeNode_view (cfg : Currency.Config) (now : Int) (d : State) (e : Envelope) :
    (routeNode cfg now d e).view = d.view := by
  rcases e with ⟨sys, dat, ts⟩
  cases dat with
  | none => rfl
  | some dd =>
    unfold routeNode
    repeat first | rfl | split

end Dispatch

/-! Claim theorems. -/

theorem sumInv_applyOp (cfg : Currency.Config) (s : Currency.State) (op : Currency.Op)
    (h : alSum s.balances = s.totalSupply) :
    alSum ((Currency.applyOp cfg s op).balances) = (Currency.applyOp cfg s op).totalSupply := by
  cases op with
  | mintOp t a m now =>
    simp only [Currency.applyOp, Currency.mintInternal]
    split
    · simpa using h
    · simp only [alSum_alSet]
      omega
  | transferOp f t a ts =>
    simp only [Currency.applyOp, Currency.transferInternal]
    split
    · simpa using h
    · simp only [alSum_alSet]
      omega
  | burnOp f a b now =>
    simp only [Currency.applyOp, Currency.burnInternal]
    split
    · simpa using h
    · simp only [alSum_alSet]
      omega

theorem sumInv_foldl (cfg : Currency.Config) (ops : List Currency.Op) :
    ∀ s : Currency.State, alSum s.balances = s.totalSupply →
      alSum ((ops.foldl (Currency.applyOp cfg) s).balances)
        = (ops.foldl (Currency.applyOp cfg) s).totalSupply := by
  induction ops with
  | nil => intro s h; simpa using h
  | cons op rest ih =>
    intro s h
    simp only [List.foldl_cons]
    exact ih _ (sumInv_applyOp cfg s op h)

/-- Claim C1: for every sequence of mint, transfer and burn operations with
non-negative integer amounts applied to a freshly created currency system
(initial supply either zero or credited to the configured initial holder),
after each operation the sum of all balances equals `totalSupply`. The
sequence `ops` is universally quantified, so the conclusion applies to every
prefix of a run — that is, after each operation. -/
theorem C1_sum_balances_eq_totalSupply (cfg : Currency.Config) (ops : List Currency.Op)
    (_hamt : ∀ op ∈ ops, 0 ≤ Currency.amountOf op) :
    alSum ((ops.foldl (Currency.applyOp cfg) (Currency.createCurrencySystem cfg)).balances)
      = (ops.foldl (Currency.applyOp cfg) (Currency.createCurrencySystem cfg)).totalSupply := by
  apply sumInv_foldl
  unfold Currency.createCurrencySystem
  split
  · simp [alSum]
  · simp [alSum]

/-- The default currency configuration of the source
(`Token`/`TKN`, 2 decimals, max supply 1000000, no initial supply). -/
def cfgDefault : Currency.Config :=
  { name := "Token", symbol := "TKN", decimals := 2, maxSupply := 1000000,
    initialSupply := 0, initialHolder := none }

/-- A concrete run: mint 5 to a, transfer 2 from a to b, burn 1 from b. -/
def opsC1 : List Currency.Op :=
  [.mintOp "a" 5 "m" 1, .transferOp "a" "b" 2 2, .burnOp "b" 1 "x" 3]

/-- Witness for C1 at a concrete run. -/
theorem C1_witness :
    alSum ((opsC1.foldl (Currency.applyOp cfgDefault)
        (Currency.createCurrencySystem cfgDefault)).balances)
      = (opsC1.foldl (Currency.applyOp cfgDefault)
          (Currency.createCurrencySystem cfgDefault)).totalSupply :=
  C1_sum_balances_eq_totalSupply cfgDefault opsC1 (by decide)

/-- Claim C2: a transfer with `balanceOf(from) < amount` is rejected — both
balances (indeed the whole balances map) unchanged, a failed transaction
record appended, and `false` returned; with sufficient balance the debit and
the credit appear together in the one resulting state (and no other address
changes), and `true` is returned. -/
theorem C2_transfer_rejection_and_atomicity (s : Currency.State) (f t : String)
    (amount now : Int) :
    (Currency.balanceOf s f < amount →
       (Currency.transfer f t amount now s).1.balances = s.balances
     ∧ (Currency.transfer f t amount now s).1.totalSupply = s.totalSupply
     ∧ (Currency.transfer f t amount now s).1.transactions
         = s.transactions ++
           [{ type := "TRANSFER", txFrom := some f, txTo := some t,
              amount := amount, timestamp := now,
              status := "failed", reason := some "Insufficient balance" }]
     ∧ (Currency.transfer f t amount now s).2 = false)
  ∧ (amount ≤ Currency.balanceOf s f → f ≠ t →
       Currency.balanceOf (Currency.transfer f t amount now s).1 f
         = Currency.balanceOf s f - amount
     ∧ Currency.balanceOf (Currency.transfer f t amount now s).1 t
         = Currency.balanceOf s t + amount
     ∧ (∀ a, a ≠ f → a ≠ t →
          Currency.balanceOf (Currency.transfer f t amount now s).1 a
            = Currency.balanceOf s a)
     ∧ (Currency.transfer f t amount now s).2 = true) := by
  constructor
  · intro h
    have hlt : (alGet s.balances f).getD 0 < amount := h
    simp only [Currency.transfer, Currency.transferInternal, if_pos hlt]
    refine ⟨trivial, trivial, trivial, ?_⟩
    simp [Currency.lastTxSuccess, getLast?_concat]
  · intro h hne
    have hnlt : ¬((alGet s.balances f).getD 0 < amount) := not_lt.mpr h
    simp only [Currency.transfer, Currency.transferInternal, if_neg hnlt]
    refine ⟨?_, ?_, ?_, ?_⟩
    · show (alGet (alSet (alSet s.balances f ((alGet s.balances f).getD 0 - amount)) t
        ((alGet (alSet s.balances f ((alGet s.balances f).getD 0 - amount)) t).getD 0 + amount)) f).getD 0
        = Currency.balanceOf s f - amount
      rw [alGet_alSet_ne _ t f _ hne, alGet_alSet_self]
      rfl
    · show (alGet (alSet (alSet s.balances f ((alGet s.balances f).getD 0 - amount)) t
        ((alGet (alSet s.balances f ((alGet s.balances f).getD 0 - amount)) t).getD 0 + amount)) t).getD 0
        = Currency.balanceOf s t + amount
      rw [alGet_alSet_self, alGet_alSet_ne _ f t _ (Ne.symm hne)]
      rfl
    · intro a haf hat
      show (alGet (alSet (alSet s.balances f ((alGet s.balances f).getD 0 - amount)) t
        ((alGet (alSet s.balances f ((alGet s.balances f).getD 0 - amount)) t).getD 0 + amount)) a).getD 0
        = Currency.balanceOf s a
      rw [alGet_alSet_ne _ t a _ hat, alGet_alSet_ne _ f a _ haf]
      rfl
    · simp [Currency.lastTxSuccess, getLast?_concat]

/-- A concrete state for the C2 witness: a holds 3. -/
def sC2 : Currency.State := { balances := [("a", 3)], transactions := [], totalSupply := 3 }

/-- Witness for C2: transferring 5 out of a balance of 3 returns false. -/
theorem C2_witness : (Currency.transfer "a" "b" 5 0 sC2).2 = false :=
  ((C2_transfer_rejection_and_atomicity sC2 "a" "b" 5 0).1 (by decide)).2.2.2

theorem supply_bound_applyOp (cfg : Currency.Config) (s : Currency.State)
    (op : Currency.Op) (ha : 0 ≤ Currency.amountOf op)
    (h : s.totalSupply ≤ cfg.maxSupply) :
    (Currency.applyOp cfg s op).totalSupply ≤ cfg.maxSupply := by
  cases op with
  | mintOp t a m now =>
    simp only [Currency.amountOf] at ha
    simp only [Currency.applyOp, Currency.mintInternal]
    split
    · exact h
    · next hc =>
      show s.totalSupply + a ≤ cfg.maxSupply
      omega
  | transferOp f t a ts =>
    simp only [Currency.applyOp, Currency.transferInternal]
    split
    · exact h
    · exact h
  | burnOp f a b now =>
    simp only [Currency.amountOf] at ha
    simp only [Currency.applyOp, Currency.burnInternal]
    split
    · exact h
    · show s.totalSupply - a ≤ cfg.maxSupply
      omega

theorem supply_bound_foldl (cfg : Currency.Config) (ops : List Currency.Op) :
    ∀ s : Currency.State, (∀ op ∈ ops, 0 ≤ Currency.amountOf op) →
      s.totalSupply ≤ cfg.maxSupply →
      (ops.foldl (Currency.applyOp cfg) s).totalSupply ≤ cfg.maxSupply := by
  induction ops with
  | nil => intro s _ h; simpa using h
  | cons op rest ih =>
    intro s ha h
    simp only [List.foldl_cons]
    exact ih _ (fun o ho => ha o (List.mem_cons_of_mem _ ho))
      (supply_bound_applyOp cfg s op (ha op (List.mem_cons_self _ _)) h)

/-- Claim C3: a mint with `totalSupply + amount > maxSupply` is rejected —
`totalSupply` and balances unchanged, a failed record with a reason appended,
and `false` returned; otherwise the recipient is credited, `totalSupply` grows
by `amount`, a success record is appended and `true` is returned. Consequently
`totalSupply` never exceeds `maxSupply` along any run of operations with
non-negative amounts that starts within the bound. -/
theorem C3_mint_rejection_and_supply_cap (cfg : Currency.Config) :
    (∀ (s : Currency.State) (toAddr minter : String) (amount now : Int),
       (cfg.maxSupply < s.totalSupply + amount →
          (Currency.mint cfg toAddr amount minter now s).1.balances = s.balances
        ∧ (Currency.mint cfg toAddr amount minter now s).1.totalSupply = s.totalSupply
        ∧ (Currency.mint cfg toAddr amount minter now s).1.transactions
            = s.transactions ++
              [{ type := "MINT", txTo := some toAddr, amount := amount,
                 minterId := some minter, timestamp := now,
                 status := "failed", reason := some "Would exceed max supply" }]
        ∧ (Currency.mint cfg toAddr amount minter now s).2 = false)
     ∧ (s.totalSupply + amount ≤ cfg.maxSupply →
          Currency.balanceOf (Currency.mint cfg toAddr amount minter now s).1 toAddr
            = Currency.balanceOf s toAddr + amount
        ∧ (Currency.mint cfg toAddr amount minter now s).1.totalSupply
            = s.totalSupply + amount
        ∧ (Currency.mint cfg toAddr amount minter now s).1.transactions
            = s.transactions ++
              [{ type := "MINT", txTo := some toAddr, amount := amount,
                 minterId := some minter, timestamp := now, status := "success" }]
        ∧ (Currency.mint cfg toAddr amount minter now s).2 = true))
  ∧ (∀ (s : Currency.State) (ops : List Currency.Op),
       (∀ op ∈ ops, 0 ≤ Currency.amountOf op) →
       s.totalSupply ≤ cfg.maxSupply →
       (ops.foldl (Currency.applyOp cfg) s).totalSupply ≤ cfg.maxSupply) := by
  constructor
  · intro s toAddr minter amount now
    constructor
    · intro h
      simp only [Currency.mint, Currency.mintInternal, if_pos h]
      refine ⟨trivial, trivial, trivial, ?_⟩
      simp [Currency.lastTxSuccess, getLast?_concat]
    · intro h
      have hn : ¬(cfg.maxSupply < s.totalSupply + amount) := not_lt.mpr h
      simp only [Currency.mint, Currency.mintInternal, if_neg hn]
      refine ⟨?_, trivial, trivial, ?_⟩
      · show (alGet (alSet s.balances toAddr ((alGet s.balances toAddr).getD 0 + amount))
            toAddr).getD 0 = Currency.balanceOf s toAddr + amount
        rw [alGet_alSet_self]
        rfl
      · simp [Currency.lastTxSuccess, getLast?_concat]
  · exact fun s ops ha h => supply_bound_foldl cfg ops s ha h

/-- Witness for C3: minting 5 into the fresh default system succeeds. -/
theorem C3_witness :
    (Currency.mint cfgDefault "a" 5 "m" 0 (Currency.createCurrencySystem cfgDefault)).2 = true :=
  (((C3_mint_rejection_and_supply_cap cfgDefault).1
      (Currency.createCurrencySystem cfgDefault) "a" "m" 5 0).2 (by decide)).2.2.2

/-- A well-formed currency MINT envelope (7 coins to addr1) with a defined
dedup key. -/
def eMintDup : Envelope :=
  { system := "currency",
    data := some { type := "MINT", dataTo := some "addr1", amount := some 7,
                   minterId := some "m1" },
    timestamp := 1 }

/-- A fresh dispatcher state over the default currency configuration. -/
def dispatch0 : Dispatch.State :=
  { identityRegistry := [], permChannels := [], defaultRoles := [],
    currency := Currency.createCurrencySystem cfgDefault,
    resource := Resource.emptyState, tokenGated := [], view := [] }

/-- Claim C4 counterexample: on the live apply path (the dispatcher routing a
currency envelope to `updateFromOperation`, which consults no dedup set),
delivering the very same envelope — hence an identical dedup key, which is
defined — a second time mints a second time: `totalSupply` goes 7 then 14, so
the second application is not a no-op. -/
theorem C4_counterexample_live_path_applies_twice :
    (Dispatch.applyNode cfgDefault 5
        (Dispatch.applyNode cfgDefault 5 dispatch0 eMintDup) eMintDup).currency.totalSupply = 14
  ∧ (Dispatch.applyNode cfgDefault 5 dispatch0 eMintDup).currency.totalSupply = 7
  ∧ (Currency.generateOperationId eMintDup).isSome = true := by decide

theorem replayStep_processed_mono (cfg : Currency.Config) (now : Int)
    (st : Currency.ReplayState) (e : Envelope) (oid : String)
    (h : oid ∈ st.processed) : oid ∈ (Currency.replayStep cfg now st e).processed := by
  unfold Currency.replayStep
  by_cases hc : (e.system = "currency" ∧ e.data ≠ none)
  · rw [if_pos hc]
    cases hg : Currency.generateOperationId e with
    | none => exact h
    | some opId =>
      dsimp only
      by_cases hm : opId ∈ st.processed
      · rw [if_pos hm]; exact h
      · rw [if_neg hm]
        simp only [List.mem_append]
        exact Or.inl h
  · rw [if_neg hc]; exact h

theorem replayStep_records (cfg : Currency.Config) (now : Int)
    (st : Currency.ReplayState) (e : Envelope) (oid : String)
    (hc : e.system = "currency" ∧ e.data ≠ none)
    (hid : Currency.generateOperationId e = some oid) :
    oid ∈ (Currency.replayStep cfg now st e).processed := by
  unfold Currency.replayStep
  rw [if_pos hc, hid]
  dsimp only
  by_cases hm : oid ∈ st.processed
  · rw [if_pos hm]; exact hm
  · rw [if_neg hm]; simp

theorem replayStep_skips (cfg : Currency.Config) (now : Int)
    (st : Currency.ReplayState) (e : Envelope) (oid : String)
    (hid : Currency.generateOperationId e = some oid)
    (hm : oid ∈ st.processed) :
    Currency.replayStep cfg now st e = st := by
  unfold Currency.replayStep
  by_cases hc : (e.system = "currency" ∧ e.data ≠ none)
  · rw [if_pos hc, hid]
    dsimp only
    rw [if_pos hm]
  · rw [if_neg hc]

theorem replayList_processed_mono (cfg : Currency.Config) (now : Int)
    (es : List Envelope) :
    ∀ (st : Currency.ReplayState) (oid : String), oid ∈ st.processed →
      oid ∈ (Currency.replayList cfg now es st).processed := by
  induction es with
  | nil => intro st oid h; simpa [Currency.replayList] using h
  | cons e rest ih =>
    intro st oid h
    simp only [Currency.replayList, List.foldl_cons]
    exact ih _ _ (replayStep_processed_mono cfg now st e oid h)

/-- Claim C4 (amended): deduplication holds on the replay path only. During
`initialize` (`forceInitialize`) a currency envelope whose dedup key has
already been processed is skipped, so replaying a log that contains the same
envelope twice produces the same state as replaying it once; on the live apply
path the dispatcher invokes `updateFromOperation` without consulting the dedup
set and the duplicate is applied again (see the counterexample theorem). -/
theorem C4_amended_replay_dedup (cfg : Currency.Config) (now : Int)
    (l1 l2 l3 : List Envelope) (e : Envelope) (oid : String)
    (hid : Currency.generateOperationId e = some oid) (st : Currency.ReplayState) :
    Currency.replayList cfg now (l1 ++ e :: (l2 ++ e :: l3)) st
      = Currency.replayList cfg now (l1 ++ e :: (l2 ++ l3)) st := by
  by_cases hc : (e.system = "currency" ∧ e.data ≠ none)
  · simp only [Currency.replayList, List.foldl_append, List.foldl_cons]
    have h1 : oid ∈ (Currency.replayStep cfg now
        (l1.foldl (Currency.replayStep cfg now) st) e).processed :=
      replayStep_records cfg now _ e oid hc hid
    have h2 : oid ∈ (l2.foldl (Currency.replayStep cfg now)
        (Currency.replayStep cfg now (l1.foldl (Currency.replayStep cfg now) st) e)).processed :=
      replayList_processed_mono cfg now l2 _ oid h1
    rw [replayStep_skips cfg now _ e oid hid h2]
  · have hskip : ∀ st2 : Currency.ReplayState, Currency.replayStep cfg now st2 e = st2 := by
      intro st2
      unfold Currency.replayStep
      rw [if_neg hc]
    simp only [Currency.replayList, List.foldl_append, List.foldl_cons, hskip]

/-- Witness for the amended C4: replaying the duplicated mint envelope equals
replaying it once. -/
theorem C4_amended_witness :
    Currency.replayList cfgDefault 5 ([] ++ eMintDup :: ([] ++ eMintDup :: []))
        Currency.replayInit
      = Currency.replayList cfgDefault 5 ([] ++ eMintDup :: ([] ++ []))
          Currency.replayInit :=
  C4_amended_replay_dedup cfgDefault 5 [] [] [] eMintDup
    "currency_MINT_1_addr1_7" (by decide) Currency.replayInit

/-- A verify primitive under which no signature verifies (every signature is
invalid). -/
def vfNone : List Nat → List Nat → List Nat → Bool := fun _ _ _ => false

/-- Claim C5 counterexample: when the keys arrive as hex strings (not
buffers), `registerDevice` performs no signature verification at all — even
under a verify primitive for which `authSignature` does not verify, the call
returns `true` and the device is added, so `isAuthorizedDevice` becomes
`true`; the claim asserts `false` and no addition. -/
theorem C5_counterexample_hex_strings_skip_verification :
    (Identity.registerDevice vfNone []
        (.hexStr "aa") (.hexStr "bb") (.hexStr "cc")).2 = true
  ∧ Identity.isAuthorizedDevice
      (Identity.registerDevice vfNone []
          (.hexStr "aa") (.hexStr "bb") (.hexStr "cc")).1
      (.hexStr "aa") (.hexStr "bb") = true := by decide

/-- Claim C5 (amended): when all three arguments are raw buffers and the
signature fails `verify(deviceKey, authSignature, masterKey)`, the call
returns `false`, the registry is unchanged, and `isAuthorizedDevice` for the
pair is what it was before (in particular it stays `false`); when the inputs
are already hex-encoded strings no verification occurs and the device is
added (see the counterexample). -/
theorem C5_amended_raw_buffer_reject (vf : List Nat → List Nat → List Nat → Bool)
    (reg : AList (List String)) (mb db sb : List Nat)
    (h : vf db sb mb = false) :
    (Identity.registerDevice vf reg (.raw mb) (.raw db) (.raw sb)).2 = false
  ∧ (Identity.registerDevice vf reg (.raw mb) (.raw db) (.raw sb)).1 = reg
  ∧ Identity.isAuthorizedDevice
      (Identity.registerDevice vf reg (.raw mb) (.raw db) (.raw sb)).1
      (.raw mb) (.raw db)
    = Identity.isAuthorizedDevice reg (.raw mb) (.raw db) := by
  simp [Identity.registerDevice, h]

/-- Witness for the amended C5 on concrete buffers. -/
theorem C5_amended_witness :
    (Identity.registerDevice vfNone [] (.raw [1]) (.raw [2]) (.raw [3])).2 = false :=
  (C5_amended_raw_buffer_reject vfNone [] [1] [2] [3] rfl).1

/-- Claim C6: every non-CREATE_ROOM permission operation whose acting user is
not a member of the target room, or whose resolved role lacks the required
flag, is silently dropped: `apply` leaves the state unchanged (and the
permission system keeps no history at all). The closed conjunct is the spec
scenario: bob holds role MEMBER and issues `updateMemberRole(alice,
"MODERATOR")` — the operation is rejected and the state, hence alice's role,
is unchanged. -/
theorem C6_unauthorized_silently_dropped :
    (∀ (now : Int) (s : Perm.PermState) (op : Perm.POp),
       Perm.isCreateRoom op = false →
       (alGet s.members (Perm.memberKeyOf op) = none →
          Perm.applyPermOp now s op = some s)
     ∧ (∀ (m : Perm.Member) (r : Perm.Role),
          alGet s.members (Perm.memberKeyOf op) = some m →
          alGet s.roles m.role = some r →
          Perm.requiredFlag op r.permissions = false →
          Perm.applyPermOp now s op = some s))
  ∧ Perm.applyPermOp 0 Perm.sceneState
      (Perm.POp.updateMemberRole "room1" "alice" "room1:MODERATOR" "bob")
      = some Perm.sceneState := by
  constructor
  · intro now s op hcr
    constructor
    · intro hm
      cases op <;>
        simp_all [Perm.applyPermOp, Perm.isOperationAuthorized, Perm.isCreateRoom]
    · intro m r hm hr hflag
      cases op <;>
        simp_all [Perm.applyPermOp, Perm.isOperationAuthorized, Perm.isCreateRoom,
          Perm.requiredFlag]
  · decide

/-- Witness for C6: a non-member actor's update is a no-op. -/
theorem C6_witness :
    Perm.applyPermOp 0 Perm.emptyPerm
        (Perm.POp.updateMemberRole "r" "alice" "r:MODERATOR" "bob")
      = some Perm.emptyPerm :=
  (C6_unauthorized_silently_dropped.1 0 Perm.emptyPerm
      (Perm.POp.updateMemberRole "r" "alice" "r:MODERATOR" "bob") rfl).1 (by decide)

/-- The member record stored for bob by the unchecked `addMemberInternal` in
the bad scenario: its role id "MEMBER" has no entry in the roles map. -/
def mBadBob : Perm.Member :=
  { id := "room1:bob", userId := "bob", roomId := "room1", role := "MEMBER",
    invitedBy := "admin", joinedAt := 0 }

/-- Claim C9: `isOperationAuthorized` is total only when every member's stored
role id resolves in the roles map. For a non-CREATE_ROOM operation whose
acting user is a member with an unresolvable role id — reachable because
`addMemberInternal` stores any role id unchecked — the check dereferences
`permissions` on an undefined role and throws (`none` in this embedding)
instead of returning false, and the exception propagates out of `apply`. -/
theorem C9_missing_role_throws :
    (∀ (s : Perm.PermState) (op : Perm.POp) (m : Perm.Member),
       Perm.isCreateRoom op = false →
       alGet s.members (Perm.memberKeyOf op) = some m →
       alGet s.roles m.role = none →
       Perm.isOperationAuthorized s op = none)
  ∧ Perm.isOperationAuthorized Perm.badSceneState
      (Perm.POp.updateMemberRole "room1" "alice" "room1:MODERATOR" "bob") = none
  ∧ Perm.applyPermOp 0 Perm.badSceneState
      (Perm.POp.updateMemberRole "room1" "alice" "room1:MODERATOR" "bob") = none := by
  refine ⟨?_, by decide, by decide⟩
  intro s op m hcr hm hr
  cases op <;>
    simp_all [Perm.isOperationAuthorized, Perm.isCreateRoom]

/-- Witness for C9 at the reachable bad scenario state. -/
theorem C9_witness :
    Perm.isOperationAuthorized Perm.badSceneState
        (Perm.POp.updateMemberRole "room1" "alice" "room1:MODERATOR" "bob") = none :=
  C9_missing_role_throws.1 Perm.badSceneState
    (Perm.POp.updateMemberRole "room1" "alice" "room1:MODERATOR" "bob")
    mBadBob rfl (by decide) (by decide)

/-- Claim C10: the room object returned by `createRoom` always records the
room creator as the acting user — `addMember` sets `inviterId` and
`updateMemberRole` sets `updaterId` to the creator's key for every argument,
so the authorization check resolves the membership of `(roomId, creator)`
regardless of who invokes the method. The closed conjunct shows the
consequence: an `updateMemberRole` issued through the room object of a room
created by "admin" succeeds and changes alice's role, whoever invoked it. -/
theorem C10_room_object_acts_as_creator :
    (∀ (roomId creatorId userId newRole : String) (roleOpt : Option String),
        Perm.actorOf (Perm.roomAddMemberOp roomId creatorId userId roleOpt) = creatorId
      ∧ Perm.actorOf (Perm.roomUpdateMemberRoleOp roomId creatorId userId newRole) = creatorId
      ∧ Perm.memberKeyOf (Perm.roomAddMemberOp roomId creatorId userId roleOpt)
          = roomId ++ ":" ++ creatorId
      ∧ Perm.memberKeyOf (Perm.roomUpdateMemberRoleOp roomId creatorId userId newRole)
          = roomId ++ ":" ++ creatorId)
  ∧ (Perm.applyPermOp 0 Perm.scene10State
        (Perm.roomUpdateMemberRoleOp "room1" "admin" "alice" "MODERATOR")).map
      (fun s => (alGet s.members "room1:alice").map Perm.Member.role)
      = some (some "room1:MODERATOR") := by
  refine ⟨?_, by decide⟩
  intro roomId creatorId userId newRole roleOpt
  exact ⟨rfl, rfl, rfl, rfl⟩

/-- Lookup into `holdings` after the ensure-entry step
`if (!holdings.has(to)) holdings.set(to, new Map())`. -/
theorem alGet_ensure (h1 : AList (AList Int)) (t q : String) :
    alGet (if (alGet h1 t).isSome then h1 else alSet h1 t []) q
      = if q = t then some ((alGet h1 t).getD []) else alGet h1 q := by
  by_cases hsome : (alGet h1 t).isSome
  · rw [if_pos hsome]
    by_cases hq : q = t
    · subst hq
      rw [if_pos rfl]
      cases hh : alGet h1 q with
      | none => rw [hh] at hsome; simp at hsome
      | some m => simp
    · rw [if_neg hq]
  · rw [if_neg hsome]
    by_cases hq : q = t
    · subst hq
      rw [if_pos rfl, alGet_alSet_self]
      cases hh : alGet h1 q with
      | none => rfl
      | some m => rw [hh] at hsome; simp at hsome
    · rw [if_neg hq, alGet_alSet_ne _ _ _ _ hq]

/-- Claim C7: `transferResourceInternal` never touches the `resources` map
(so every resource definition, and in particular every `currentSupply`, is
unchanged whether the transfer succeeds or fails); a successful transfer with
distinct addresses only moves `amount` of `resourceId` from sender to
recipient, leaving every other (address, resource) holding unchanged. -/
theorem C7_transfer_resource_moves_holdings_only (s : Resource.State)
    (rid f t : String) (amount ts : Int) :
    (Resource.transferResourceInternal rid f t amount ts s).resources = s.resources
  ∧ (∀ sh : AList Int, alGet s.holdings f = some sh →
       amount ≤ (alGet sh rid).getD 0 → f ≠ t →
       Resource.holdingOf (Resource.transferResourceInternal rid f t amount ts s) f rid
         = Resource.holdingOf s f rid - amount
     ∧ Resource.holdingOf (Resource.transferResourceInternal rid f t amount ts s) t rid
         = Resource.holdingOf s t rid + amount
     ∧ (∀ a r, ¬(a = f ∧ r = rid) → ¬(a = t ∧ r = rid) →
          Resource.holdingOf (Resource.transferResourceInternal rid f t amount ts s) a r
            = Resource.holdingOf s a r)) := by
  constructor
  · unfold Resource.transferResourceInternal
    cases hf : alGet s.holdings f with
    | none => rfl
    | some sh =>
      dsimp only
      split
      · rfl
      · rfl
  · intro sh hf hamt hne
    have hnlt : ¬((alGet sh rid).getD 0 < amount) := not_lt.mpr hamt
    unfold Resource.transferResourceInternal
    rw [hf]
    dsimp only
    rw [if_neg hnlt]
    have htf : ¬(t = f) := fun hh => hne hh.symm
    refine ⟨?_, ?_, ?_⟩
    · show (alGet ((alGet (alSet _ t _) f).getD []) rid).getD 0
        = Resource.holdingOf s f rid - amount
      rw [alGet_alSet_ne _ t f _ hne, alGet_ensure, if_neg hne,
        alGet_alSet_self]
      unfold Resource.holdingOf
      rw [hf]
      simp [alGet_alSet_self]
    · show (alGet ((alGet (alSet _ t _) t).getD []) rid).getD 0
        = Resource.holdingOf s t rid + amount
      rw [alGet_alSet_self]
      unfold Resource.holdingOf
      simp only [Option.getD_some]
      rw [alGet_alSet_self, alGet_ensure, if_pos rfl,
        alGet_alSet_ne _ f t _ htf]
      simp
    · intro a r hafr hatr
      by_cases haf : a = f
      · subst haf
        have hrne : r ≠ rid := fun hh => hafr ⟨rfl, hh⟩
        show (alGet ((alGet (alSet _ t _) a).getD []) r).getD 0
          = Resource.holdingOf s a r
        rw [alGet_alSet_ne _ t a _ hne, alGet_ensure, if_neg hne,
          alGet_alSet_self]
        unfold Resource.holdingOf
        rw [hf]
        simp only [Option.getD_some]
        rw [alGet_alSet_ne _ rid r _ hrne]
      · by_cases hat : a = t
        · subst hat
          have hrne : r ≠ rid := fun hh => hatr ⟨rfl, hh⟩
          show (alGet ((alGet (alSet _ a _) a).getD []) r).getD 0
            = Resource.holdingOf s a r
          rw [alGet_alSet_self]
          unfold Resource.holdingOf
          simp only [Option.getD_some]
          rw [alGet_alSet_ne _ rid r _ hrne, alGet_ensure, if_pos rfl,
            alGet_alSet_ne _ f a _ haf]
          cases hh : alGet s.holdings a with
          | none => simp [alGet]
          | some m => simp
        · show (alGet ((alGet (alSet _ t _) a).getD []) r).getD 0
            = Resource.holdingOf s a r
          rw [alGet_alSet_ne _ t a _ hat, alGet_ensure, if_neg hat,
            alGet_alSet_ne _ f a _ haf]
          rfl

/-- A concrete resource definition: unlimited gold with 5 in circulation. -/
def goldDef : Resource.ResourceDef :=
  { id := "gold", name := "Gold", description := "", maxSupply := 0,
    currentSupply := 5, createdAt := 0, createdBy := "c" }

/-- A concrete resource state: 5 gold minted to a. -/
def sC7 : Resource.State :=
  { resources := [("gold", goldDef)],
    holdings := [("a", [("gold", 5)])], operations := [] }

/-- Witness for C7: transferring 2 gold from a to b debits a by 2. -/
theorem C7_witness :
    Resource.holdingOf (Resource.transferResourceInternal "gold" "a" "b" 2 0 sC7) "a" "gold"
      = Resource.holdingOf sC7 "a" "gold" - 2 :=
  ((C7_transfer_resource_moves_holdings_only sC7 "gold" "a" "b" 2 0).2
    [("gold", 5)] (by decide) (by decide) (by decide)).1

/-- Claim C8: the Apply Dispatcher skips an envelope lacking a `system` or
`data` field with no state change and no view append; otherwise it routes by
`system` to the matching domain machine's transition function (leaving the
other domains alone) and then appends the envelope to the durable view
unconditionally — whether or not the domain transition succeeded. -/
theorem C8_dispatcher_routes_and_persists (cfg : Currency.Config) (now : Int)
    (d : Dispatch.State) (e : Envelope) :
    (e.system = "" ∨ e.data = none → Dispatch.applyNode cfg now d e = d)
  ∧ (e.system ≠ "" → e.data ≠ none →
       (Dispatch.applyNode cfg now d e).view = d.view ++ [e])
  ∧ (e.system = "currency" → e.data ≠ none →
       (Dispatch.applyNode cfg now d e).currency
         = Currency.updateFromOperation cfg now e d.currency
     ∧ (Dispatch.applyNode cfg now d e).resource = d.resource
     ∧ (Dispatch.applyNode cfg now d e).identityRegistry = d.identityRegistry)
  ∧ (e.system = "resource" → e.data ≠ none →
       (Dispatch.applyNode cfg now d e).resource
         = Resource.updateFromOperation now e d.resource
     ∧ (Dispatch.applyNode cfg now d e).currency = d.currency) := by
  refine ⟨?_, ?_, ?_, ?_⟩
  · intro h
    simp only [Dispatch.applyNode, if_pos h]
  · intro h1 h2
    have hn : ¬(e.system = "" ∨ e.data = none) := by
      intro hcontra
      rcases hcontra with hc | hc
      · exact h1 hc
      · exact h2 hc
    simp only [Dispatch.applyNode, if_neg hn]
    rw [Dispatch.routeNode_view]
  · intro hs h2
    rcases e with ⟨sys, dat, ts⟩
    simp only at hs
    subst hs
    cases dat with
    | none => exact absurd rfl h2
    | some dd =>
      refine ⟨?_, ?_, ?_⟩ <;>
        simp [Dispatch.applyNode, Dispatch.routeNode]
  · intro hs h2
    rcases e with ⟨sys, dat, ts⟩
    simp only at hs
    subst hs
    cases dat with
    | none => exact absurd rfl h2
    | some dd =>
      refine ⟨?_, ?_⟩ <;>
        simp [Dispatch.applyNode, Dispatch.routeNode]

/-- Witness for C8: the mint envelope is appended to the view. -/
theorem C8_witness :
    (Dispatch.applyNode cfgDefault 5 dispatch0 eMintDup).view
      = dispatch0.view ++ [eMintDup] :=
  (C8_dispatcher_routes_and_persists cfgDefault 5 dispatch0 eMintDup).2.1
    (by decide) (by decide)

end AutobaseSC
